import Mathlib

/-
  Shallow embedding of `src/plugins/simulator/visualizations/webviz/webviz.cpp`
  (class `argos::CWebviz`): the experiment state machine, the five control
  operations, the simulation driver loop body and the snapshot broadcaster.

  Modelling conventions:
  * the simulation engine (an external collaborator) is reduced to the pieces
    this file observes: a step counter (`GetSimulationClock`), a finished
    predicate (`IsExperimentFinished`, modelled as "clock has reached
    `finishTime`"), a `Reset` that zeroes the clock, the per-entity JSON
    conversion results of the root entities, and the arena geometry;
  * side effects (emitted events, broadcasts, engine steps, hook invocations,
    warnings, sleeps) are collected in an explicit effect trace;
  * wall-clock time appears only as an opaque timestamp parameter `ts` fed to
    the snapshot builder, and the tick duration recomputed by Play/FastForward
    is the opaque parameter `tick`;
  * the concurrent reads of `m_eExperimentState` performed by the inner
    fast-forward loop are modelled by an oracle `phaseSeq : Nat → …` giving
    the phase value observed at each inner-loop check.
-/

namespace Webviz

/-- The experiment phases (enum `Webviz::EExperimentState`). -/
inductive EExperimentState where
  | EXPERIMENT_INITIALIZED
  | EXPERIMENT_PLAYING
  | EXPERIMENT_PAUSED
  | EXPERIMENT_FAST_FORWARDING
deriving DecidableEq

open EExperimentState

/-- Modelled from the spec: `Webviz::EExperimentStateToStr` is declared in a
header that is not among the given sources; the spec only says the snapshot
carries the phase as a display string, so the exact strings are arbitrary
names of the four phases. -/
def EExperimentStateToStr : EExperimentState → String
  | EXPERIMENT_INITIALIZED => "EXPERIMENT_INITIALIZED"
  | EXPERIMENT_PLAYING => "EXPERIMENT_PLAYING"
  | EXPERIMENT_PAUSED => "EXPERIMENT_PAUSED"
  | EXPERIMENT_FAST_FORWARDING => "EXPERIMENT_FAST_FORWARD"

/-- A 3-component vector (`CVector3`), components kept opaque as integers. -/
structure Vec3 where
  x : Int
  y : Int
  z : Int
deriving DecidableEq

/-- The engine/space state observed by `CWebviz`: simulation clock, the point
at which `IsExperimentFinished` becomes true, the JSON conversion result of
each root entity (`none` = the per-type conversion is absent), and the arena
geometry. -/
structure Engine where
  clock : Nat
  finishTime : Nat
  entities : List (Option Nat)
  arenaSize : Vec3
  arenaCenter : Vec3
deriving DecidableEq

/-- `m_cSimulator.IsExperimentFinished()`. -/
def Engine.isFinished (e : Engine) : Bool :=
  e.finishTime ≤ e.clock

/-- `m_cSimulator.UpdateSpace()`: one engine step. -/
def Engine.stepOnce (e : Engine) : Engine :=
  { e with clock := e.clock + 1 }

/-- `m_cSimulator.Reset()`. -/
def Engine.resetEngine (e : Engine) : Engine :=
  { e with clock := 0 }

/-- The mutable members of `CWebviz` relevant to the control operations:
`m_eExperimentState`, `m_bFastForwarding`, `m_cSimulatorTickMillis`,
`m_unDrawFrameEvery`, plus the engine state. -/
structure WebvizState where
  state : EExperimentState
  fastForwarding : Bool
  tickMillis : Nat
  drawFrameEvery : Nat
  engine : Engine
deriving DecidableEq

/-- The state after the `CWebviz` constructor (phase `EXPERIMENT_INITIALIZED`,
fast-forward flag false) and `Init` (which stores `m_unDrawFrameEvery`);
`m_cSimulatorTickMillis` is not yet assigned, modelled as 0. -/
def initialWebvizState (eng : Engine) (drawFrameEvery : Nat) : WebvizState :=
  { state := EXPERIMENT_INITIALIZED
    fastForwarding := false
    tickMillis := 0
    drawFrameEvery := drawFrameEvery
    engine := eng }

/-- JSON values appearing in the broadcast snapshot. -/
inductive JsonVal where
  | entityArr (items : List Nat)
  | arenaObj (size center : Vec3)
  | numVal (n : Nat)
  | strVal (s : String)
deriving DecidableEq

/-- `CWebviz::BroadcastExperimentState`: the JSON object broadcast to the web
server, as a key/value list. The "entities" key is created only by the first
`push_back`, i.e. only when at least one root entity yields a conversion;
a failed conversion only logs an error and the entity is omitted. -/
def broadcastJson (ts : Nat) (s : WebvizState) : List (String × JsonVal) :=
  let ents := s.engine.entities.filterMap id
  (if ents.isEmpty then [] else [("entities", JsonVal.entityArr ents)]) ++
  [("arena", JsonVal.arenaObj s.engine.arenaSize s.engine.arenaCenter),
   ("timestamp", JsonVal.numVal ts),
   ("state", JsonVal.strVal (EExperimentStateToStr s.state)),
   ("steps", JsonVal.numVal s.engine.clock)]

/-- Observable side effects of the embedded operations, in order. -/
inductive Effect where
  | emitEvent (name : String) (st : EExperimentState)
  | broadcast (json : List (String × JsonVal))
  | engineStep
  | preStep
  | postStep
  | postExperiment
  | logWarning
  | pace
  | sleep
deriving DecidableEq

/-- Result of one control operation: the new member state, the effect trace,
and the message of the thrown exception when the operation throws. -/
structure OpResult where
  st : WebvizState
  effects : List Effect
  thrown : Option String
deriving DecidableEq

/-- `CWebviz::PlayExperiment`. -/
def PlayExperiment (tick : Nat) (s : WebvizState) : OpResult :=
  if s.state ≠ EXPERIMENT_INITIALIZED ∧ s.state ≠ EXPERIMENT_PAUSED then
    { st := s, effects := [Effect.logWarning], thrown := none }
  else
    { st := { s with fastForwarding := false
                     tickMillis := tick
                     state := EXPERIMENT_PLAYING }
      effects := [Effect.emitEvent "Experiment playing" EXPERIMENT_PLAYING]
      thrown := none }

/-- `CWebviz::FastForwardExperiment`. -/
def FastForwardExperiment (tick : Nat) (s : WebvizState) : OpResult :=
  { st := { s with fastForwarding := true
                   tickMillis := tick
                   state := EXPERIMENT_FAST_FORWARDING }
    effects :=
      (if s.state ≠ EXPERIMENT_INITIALIZED ∧ s.state ≠ EXPERIMENT_PAUSED then
        [Effect.logWarning] else []) ++
      [Effect.emitEvent "Experiment fast-forwarding" EXPERIMENT_FAST_FORWARDING]
    thrown := none }

/-- `CWebviz::PauseExperiment`: throws `std::runtime_error` when called
outside `PLAYING`/`FAST_FORWARDING`, leaving all members unchanged. -/
def PauseExperiment (s : WebvizState) : OpResult :=
  if s.state ≠ EXPERIMENT_PLAYING ∧ s.state ≠ EXPERIMENT_FAST_FORWARDING then
    { st := s
      effects := [Effect.logWarning]
      thrown := some ("Cannot pause the experiment, current state : " ++
        EExperimentStateToStr s.state) }
  else
    { st := { s with fastForwarding := false, state := EXPERIMENT_PAUSED }
      effects := [Effect.emitEvent "Experiment paused" EXPERIMENT_PAUSED]
      thrown := none }

/-- `CWebviz::ResetExperiment`. -/
def ResetExperiment (ts : Nat) (s : WebvizState) : OpResult :=
  let s1 : WebvizState :=
    { s with engine := s.engine.resetEngine
             fastForwarding := false
             state := EXPERIMENT_INITIALIZED }
  { st := s1
    effects := [Effect.emitEvent "Experiment reset" s1.state,
                Effect.broadcast (broadcastJson ts s1)]
    thrown := none }

/-- `CWebviz::StepExperiment`. Called in `PLAYING`/`FAST_FORWARDING` it only
coerces the phase to `PAUSED` and returns (without touching
`m_bFastForwarding`); otherwise it clears the fast-forward flag and either
runs one pre-step/step/post-step cycle or, if the engine is finished, runs the
completion handling, always ending in a broadcast. -/
def StepExperiment (ts : Nat) (s : WebvizState) : OpResult :=
  if s.state = EXPERIMENT_PLAYING ∨ s.state = EXPERIMENT_FAST_FORWARDING then
    { st := { s with state := EXPERIMENT_PAUSED }
      effects := [Effect.logWarning]
      thrown := none }
  else
    let s1 : WebvizState := { s with fastForwarding := false }
    if s1.engine.isFinished then
      let r := ResetExperiment ts s1
      { st := r.st
        effects := Effect.postExperiment :: r.effects ++
          [Effect.emitEvent "Experiment done" r.st.state,
           Effect.broadcast (broadcastJson ts r.st)]
        thrown := none }
    else
      let s2 : WebvizState := { s1 with engine := s1.engine.stepOnce }
      { st := s2
        effects := [Effect.preStep, Effect.engineStep, Effect.postStep,
                    Effect.emitEvent "Experiment step done" s2.state,
                    Effect.broadcast (broadcastJson ts s2)]
        thrown := none }

/-- The condition of the driver loop's running branch and of the inner burst
loop: phase is `PLAYING` or `FAST_FORWARDING`. -/
def isRunningPhase : EExperimentState → Bool
  | EXPERIMENT_PLAYING => true
  | EXPERIMENT_FAST_FORWARDING => true
  | _ => false

/-- The inner stepping loop of `SimulationThreadFunction`:
`while (unFFStepCounter > 0 && !IsExperimentFinished() && running phase)`.
`phaseSeq i` is the phase value observed at the i-th check (the phase can be
changed concurrently by a control operation); returns the number of engine
steps performed and the resulting engine. -/
def burstLoop (phaseSeq : Nat → EExperimentState) (i : Nat) (counter : Nat)
    (e : Engine) : Nat × Engine :=
  match counter with
  | 0 => (0, e)
  | Nat.succ c =>
    if e.isFinished then (0, e)
    else if isRunningPhase (phaseSeq i) then
      let r := burstLoop phaseSeq (i + 1) c e.stepOnce
      (r.1 + 1, r.2)
    else (0, e)

/-- Whether the driver loop body falls through to the next iteration or
returns from `SimulationThreadFunction` (terminating the driver thread). -/
inductive LoopOutcome where
  | next
  | exit
deriving DecidableEq

/-- The completion handling shared by the driver's two completion branches
and by `StepExperiment`: post-experiment hook, `ResetExperiment`, then the
"Experiment done" event read off the post-reset phase. -/
def completionEffects (ts : Nat) (s : WebvizState) : List Effect :=
  Effect.postExperiment :: (ResetExperiment ts s).effects ++
    [Effect.emitEvent "Experiment done" (ResetExperiment ts s).st.state]

/-- One iteration of the outer `while (true)` loop of
`CWebviz::SimulationThreadFunction`: returns the new state, the effect trace
of the iteration, and whether the loop continues or the function returns. -/
def SimulationLoopBody (phaseSeq : Nat → EExperimentState) (ts : Nat)
    (s : WebvizState) : WebvizState × List Effect × LoopOutcome :=
  if isRunningPhase s.state then
    if !s.engine.isFinished then
      let counter := if s.fastForwarding then s.drawFrameEvery else 1
      let b := burstLoop phaseSeq 0 counter s.engine
      let s1 : WebvizState := { s with engine := b.2 }
      if b.2.isFinished then
        let r := ResetExperiment ts s1
        (r.st,
         Effect.preStep :: (List.replicate b.1 Effect.engineStep ++
           (Effect.broadcast (broadcastJson ts s1) :: Effect.postStep ::
             Effect.postExperiment :: r.effects ++
             [Effect.emitEvent "Experiment done" r.st.state])),
         LoopOutcome.exit)
      else
        (s1,
         Effect.preStep :: (List.replicate b.1 Effect.engineStep ++
           [Effect.broadcast (broadcastJson ts s1), Effect.postStep,
            Effect.pace]),
         LoopOutcome.next)
    else
      let r := ResetExperiment ts s
      (r.st,
       Effect.postExperiment :: r.effects ++
         [Effect.emitEvent "Experiment done" r.st.state],
       LoopOutcome.next)
  else
    (s, [Effect.broadcast (broadcastJson ts s), Effect.sleep],
     LoopOutcome.next)

/-- `CWebviz::Init`, reduced to the configuration validation the claims are
about: validates the broadcast frequency against the range `[1, 10]` and
throws a `CARGoSException` outside it, otherwise yields the accepted
configuration. -/
def InitWebviz (port broadcastFrequency drawFrameEvery : Nat) :
    Except String (Nat × Nat × Nat) :=
  if broadcastFrequency < 1 ∨ 10 < broadcastFrequency then
    Except.error
      "Broadcast frequency set in configuration is out of range [1,1000]"
  else
    Except.ok (port, broadcastFrequency, drawFrameEvery)

/-- Whether `InitWebviz` accepts the configuration (does not throw). -/
def initAccepts (port broadcastFrequency drawFrameEvery : Nat) : Bool :=
  match InitWebviz port broadcastFrequency drawFrameEvery with
  | Except.ok _ => true
  | Except.error _ => false

/-- The flag/phase lock-step invariant claimed by the spec:
`m_bFastForwarding` is true iff the phase is `FAST_FORWARDING`. -/
def flagPhaseInv (s : WebvizState) : Prop :=
  s.fastForwarding = true ↔ s.state = EXPERIMENT_FAST_FORWARDING

instance (s : WebvizState) : Decidable (flagPhaseInv s) := by
  unfold flagPhaseInv
  infer_instance

/-- Predicate for counting engine-step effects. -/
def isEngineStepEff : Effect → Bool
  | Effect.engineStep => true
  | _ => false

/-- Predicate for counting broadcast effects. -/
def isBroadcastEff : Effect → Bool
  | Effect.broadcast _ => true
  | _ => false

/-- Predicate for counting emitted events. -/
def isEmitEff : Effect → Bool
  | Effect.emitEvent _ _ => true
  | _ => false

/-- Predicate for counting "Experiment step done" events. -/
def isStepDoneEff : Effect → Bool
  | Effect.emitEvent n _ => n = "Experiment step done"
  | _ => false

/-- Predicate for counting "Experiment done" events. -/
def isDoneEff : Effect → Bool
  | Effect.emitEvent n _ => n = "Experiment done"
  | _ => false

/-- Zero vector, for the concrete witness states. -/
def vZero : Vec3 := { x := 0, y := 0, z := 0 }

/-- A concrete engine far from finishing. -/
def engRunning : Engine :=
  { clock := 0, finishTime := 1000, entities := [], arenaSize := vZero,
    arenaCenter := vZero }

/-- A concrete engine that finishes after one more step. -/
def engAboutToFinish : Engine :=
  { clock := 0, finishTime := 1, entities := [], arenaSize := vZero,
    arenaCenter := vZero }

/-- `engAboutToFinish` after one step (finished). -/
def engAfterOne : Engine :=
  { clock := 1, finishTime := 1, entities := [], arenaSize := vZero,
    arenaCenter := vZero }

/-- A concrete engine that is already finished. -/
def engFinished : Engine :=
  { clock := 5, finishTime := 5, entities := [], arenaSize := vZero,
    arenaCenter := vZero }

/-- An engine with one convertible and one non-convertible root entity. -/
def engMixedEntities : Engine :=
  { clock := 3, finishTime := 1000, entities := [some 7, none],
    arenaSize := vZero, arenaCenter := vZero }

/-- An engine whose only root entity fails to convert. -/
def engFailingEntity : Engine :=
  { clock := 3, finishTime := 1000, entities := [none], arenaSize := vZero,
    arenaCenter := vZero }

/-- Concrete freshly initialized state. -/
def stateInit : WebvizState := initialWebvizState engRunning 2

/-- Concrete fast-forwarding state whose engine finishes mid-burst. -/
def stateFFAboutToFinish : WebvizState :=
  { state := EXPERIMENT_FAST_FORWARDING
    fastForwarding := true
    tickMillis := 100
    drawFrameEvery := 2
    engine := engAboutToFinish }

/-- Concrete paused state with a finished engine. -/
def statePausedFinished : WebvizState :=
  { state := EXPERIMENT_PAUSED
    fastForwarding := false
    tickMillis := 100
    drawFrameEvery := 2
    engine := engFinished }

/-- A concrete fast-forwarding state far from finishing. -/
def stateFFRunning : WebvizState :=
  { state := EXPERIMENT_FAST_FORWARDING
    fastForwarding := true
    tickMillis := 100
    drawFrameEvery := 2
    engine := engRunning }

/-- A concrete paused state far from finishing. -/
def statePausedRunning : WebvizState :=
  { state := EXPERIMENT_PAUSED
    fastForwarding := false
    tickMillis := 100
    drawFrameEvery := 2
    engine := engRunning }

/-- A concrete paused state whose only root entity fails to convert. -/
def stateWithFailingEntity : WebvizState :=
  { state := EXPERIMENT_PAUSED
    fastForwarding := false
    tickMillis := 100
    drawFrameEvery := 2
    engine := engFailingEntity }

/-- Counting a predicate over a replicated list. -/
theorem countP_replicate_eff (p : Effect → Bool) (a : Effect) (n : Nat) :
    (List.replicate n a).countP p = if p a then n else 0 := by
  induction n with
  | zero => simp
  | succ m ih =>
    rw [List.replicate_succ, List.countP_cons, ih]
    split <;> simp_all

/-- The inner burst loop performs at most `counter` engine steps. -/
theorem burstLoop_le (phaseSeq : Nat → EExperimentState) :
    ∀ (c i : Nat) (e : Engine), (burstLoop phaseSeq i c e).1 ≤ c := by
  intro c
  induction c with
  | zero => intro i e; simp [burstLoop]
  | succ m ih =>
    intro i e
    simp only [burstLoop]
    split
    · simp
    · split
      · have h := ih (i + 1) e.stepOnce
        simpa using Nat.succ_le_succ h
      · simp

/-- The inner burst loop stops as soon as the observed phase leaves
`PLAYING`/`FAST_FORWARDING`: if the phase observed at the j-th check is not a
running phase, at most j steps are performed. -/
theorem burstLoop_stop_phase (phaseSeq : Nat → EExperimentState) :
    ∀ (c i j : Nat) (e : Engine),
      isRunningPhase (phaseSeq (i + j)) = false →
      (burstLoop phaseSeq i c e).1 ≤ j := by
  intro c
  induction c with
  | zero => intro i j e _; simp [burstLoop]
  | succ m ih =>
    intro i j e hstop
    simp only [burstLoop]
    split
    · simp
    · split
      · rename_i hfin hrun
        match j with
        | 0 =>
          rw [Nat.add_zero] at hstop
          rw [hstop] at hrun
          exact absurd hrun (by simp)
        | Nat.succ j1 =>
          have h := ih (i + 1) j1 e.stepOnce
            (by rw [Nat.add_comm i (j1 + 1)] at hstop
                rw [show i + 1 + j1 = j1 + 1 + i from by omega]
                exact hstop)
          simpa using Nat.succ_le_succ h
      · simp

/-- The inner burst loop stops as soon as the engine finishes: it performs at
most `finishTime - clock` engine steps. -/
theorem burstLoop_stop_finish (phaseSeq : Nat → EExperimentState) :
    ∀ (c i : Nat) (e : Engine),
      (burstLoop phaseSeq i c e).1 ≤ e.finishTime - e.clock := by
  intro c
  induction c with
  | zero => intro i e; simp [burstLoop]
  | succ m ih =>
    intro i e
    simp only [burstLoop]
    split
    · simp
    · split
      · rename_i hfin _
        have hlt : e.clock < e.finishTime := by
          simp [Engine.isFinished] at hfin
          omega
        have h := ih (i + 1) e.stepOnce
        have h2 : e.stepOnce.finishTime = e.finishTime := rfl
        have h3 : e.stepOnce.clock = e.clock + 1 := rfl
        rw [h2, h3] at h
        omega
      · simp

/-- C1 counterexample: the claimed lock-step equivalence between
`isFastForwarding` and `phase == FAST_FORWARDING` is broken by Step. From the
reachable state produced by FastForward (phase `FAST_FORWARDING`, flag true),
StepExperiment coerces the phase to `PAUSED` but returns before clearing
`m_bFastForwarding`, leaving flag true with phase `PAUSED`. -/
theorem C1_step_from_fastforward_counterexample :
    (FastForwardExperiment 100 stateInit).st.state =
      EXPERIMENT_FAST_FORWARDING ∧
    (FastForwardExperiment 100 stateInit).st.fastForwarding = true ∧
    (StepExperiment 0 (FastForwardExperiment 100 stateInit).st).st.state =
      EXPERIMENT_PAUSED ∧
    (StepExperiment 0
        (FastForwardExperiment 100 stateInit).st).st.fastForwarding = true ∧
    ¬ flagPhaseInv (StepExperiment 0
        (FastForwardExperiment 100 stateInit).st).st := by
  decide

/-- C1 (amended): `isFastForwarding = (phase == FAST_FORWARDING)` is
established initially and preserved by Play, Pause, FastForward and Reset from
any state, and by Step from any state whose phase is not `FAST_FORWARDING`;
Step called while the phase is `FAST_FORWARDING` instead coerces the phase to
`PAUSED` while leaving `isFastForwarding` unchanged (true), breaking the
equivalence. -/
theorem C1_flag_phase_lockstep_amended (tick ts : Nat) (s : WebvizState)
    (h : flagPhaseInv s) :
    flagPhaseInv (PlayExperiment tick s).st ∧
    flagPhaseInv (PauseExperiment s).st ∧
    flagPhaseInv (FastForwardExperiment tick s).st ∧
    flagPhaseInv (ResetExperiment ts s).st ∧
    (s.state ≠ EXPERIMENT_FAST_FORWARDING →
       flagPhaseInv (StepExperiment ts s).st) ∧
    (s.state = EXPERIMENT_FAST_FORWARDING →
       (StepExperiment ts s).st.state = EXPERIMENT_PAUSED ∧
       (StepExperiment ts s).st.fastForwarding = s.fastForwarding) := by
  obtain ⟨st, ff, tm, dfe, eng⟩ := s
  simp only [flagPhaseInv] at h
  cases st <;> cases ff <;> cases heng : eng.isFinished <;>
    simp_all [flagPhaseInv, PlayExperiment, PauseExperiment,
      FastForwardExperiment, ResetExperiment, StepExperiment, apply_ite]

/-- C1 witness: the amended invariant-preservation theorem applied to the
freshly initialized state. -/
theorem C1_flag_phase_lockstep_witness :
    flagPhaseInv (PlayExperiment 5 stateInit).st :=
  (C1_flag_phase_lockstep_amended 5 0 stateInit (by decide)).1

/-- C2: in the driver loop body entered with a running phase, when the engine
reports finished after the step/broadcast/post-step sequence the body runs
post-experiment hook, Reset, "done" event and returns (the thread terminates);
when the engine is already finished before any step, the body performs the
same completion handling but continues the loop. The completion effect
sequences are identical; the two paths differ exactly in the outcome. -/
theorem C2_completion_paths (phaseSeq : Nat → EExperimentState) (ts : Nat)
    (s : WebvizState)
    (hrun : s.state = EXPERIMENT_PLAYING ∨
            s.state = EXPERIMENT_FAST_FORWARDING) :
    (∀ n eng1,
       s.engine.isFinished = false →
       burstLoop phaseSeq 0 (if s.fastForwarding then s.drawFrameEvery else 1)
           s.engine = (n, eng1) →
       (eng1.isFinished = true →
          SimulationLoopBody phaseSeq ts s =
            ((ResetExperiment ts { s with engine := eng1 }).st,
             [Effect.preStep] ++ List.replicate n Effect.engineStep ++
               [Effect.broadcast (broadcastJson ts { s with engine := eng1 }),
                Effect.postStep] ++
               completionEffects ts { s with engine := eng1 },
             LoopOutcome.exit)) ∧
       (eng1.isFinished = false →
          (SimulationLoopBody phaseSeq ts s).2.2 = LoopOutcome.next)) ∧
    (s.engine.isFinished = true →
       SimulationLoopBody phaseSeq ts s =
         ((ResetExperiment ts s).st, completionEffects ts s,
          LoopOutcome.next)) := by
  have hrp : isRunningPhase s.state = true := by
    rcases hrun with h | h <;> rw [h] <;> rfl
  refine ⟨?_, ?_⟩
  · intro n eng1 hnf hburst
    constructor
    · intro hfin
      simp only [SimulationLoopBody, hrp, if_true, hnf, hburst,
        completionEffects]
      simp [hfin]
    · intro hfin
      simp only [SimulationLoopBody, hrp, if_true, hnf, hburst]
      simp [hfin]
  · intro hfin
    simp only [SimulationLoopBody, hrp, if_true, hfin, completionEffects]
    simp

/-- C2 witness: the mid-run completion path at a concrete fast-forwarding
state whose engine finishes after one step; the driver terminates. -/
theorem C2_completion_paths_witness :
    SimulationLoopBody (fun _ => EXPERIMENT_FAST_FORWARDING) 0
        stateFFAboutToFinish =
      ((ResetExperiment 0 { stateFFAboutToFinish with engine := engAfterOne }).st,
       [Effect.preStep] ++ List.replicate 1 Effect.engineStep ++
         [Effect.broadcast (broadcastJson 0
            { stateFFAboutToFinish with engine := engAfterOne }),
          Effect.postStep] ++
         completionEffects 0 { stateFFAboutToFinish with engine := engAfterOne },
       LoopOutcome.exit) :=
  ((C2_completion_paths (fun _ => EXPERIMENT_FAST_FORWARDING) 0
      stateFFAboutToFinish (Or.inr rfl)).1 1 engAfterOne (by decide)
      (by decide)).1 (by decide)

/-- C3: Step called while the phase is `PLAYING`/`FAST_FORWARDING` only
coerces the phase to `PAUSED`, performing zero engine steps; Step called while
`PAUSED`/`INITIALIZED` with the engine unfinished performs exactly one
pre-step/engine-step/post-step cycle, emits exactly one "step done" event and
exactly one snapshot broadcast. -/
theorem C3_step_operation_semantics (ts : Nat) (s : WebvizState) :
    ((s.state = EXPERIMENT_PLAYING ∨ s.state = EXPERIMENT_FAST_FORWARDING) →
       (StepExperiment ts s).st.state = EXPERIMENT_PAUSED ∧
       (StepExperiment ts s).st.engine = s.engine ∧
       (StepExperiment ts s).effects.countP isEngineStepEff = 0) ∧
    ((s.state = EXPERIMENT_PAUSED ∨ s.state = EXPERIMENT_INITIALIZED) →
       s.engine.isFinished = false →
       (StepExperiment ts s).st.engine = s.engine.stepOnce ∧
       (StepExperiment ts s).effects =
         [Effect.preStep, Effect.engineStep, Effect.postStep,
          Effect.emitEvent "Experiment step done" s.state,
          Effect.broadcast (broadcastJson ts
            { s with fastForwarding := false,
                     engine := s.engine.stepOnce })] ∧
       (StepExperiment ts s).effects.countP isEngineStepEff = 1 ∧
       (StepExperiment ts s).effects.countP isStepDoneEff = 1 ∧
       (StepExperiment ts s).effects.countP isBroadcastEff = 1) := by
  obtain ⟨st, ff, tm, dfe, eng⟩ := s
  cases st <;>
    simp_all [StepExperiment, ResetExperiment, isEngineStepEff,
      isStepDoneEff, isBroadcastEff, apply_ite,
      List.countP_cons, List.countP_nil]

/-- C3 witness: Step from a concrete paused, unfinished state performs
exactly one engine step. -/
theorem C3_step_operation_semantics_witness :
    (StepExperiment 0 statePausedRunning).effects.countP isEngineStepEff =
      1 :=
  (((C3_step_operation_semantics 0 statePausedRunning).2 (Or.inl rfl)
      (by decide)).2.2).1

/-- C4: Pause throws exactly when the phase is neither `PLAYING` nor
`FAST_FORWARDING`; in the throwing case the member state is unchanged and no
event is emitted; otherwise it clears the fast-forward flag, sets the phase to
`PAUSED` and emits a "paused" event. None of the other four control
operations ever throws. -/
theorem C4_pause_error_policy (tick ts : Nat) (s : WebvizState) :
    ((PauseExperiment s).thrown.isSome = true ↔
       (s.state ≠ EXPERIMENT_PLAYING ∧
        s.state ≠ EXPERIMENT_FAST_FORWARDING)) ∧
    ((s.state ≠ EXPERIMENT_PLAYING ∧ s.state ≠ EXPERIMENT_FAST_FORWARDING) →
       (PauseExperiment s).st = s ∧
       (PauseExperiment s).effects.countP isEmitEff = 0) ∧
    ((s.state = EXPERIMENT_PLAYING ∨ s.state = EXPERIMENT_FAST_FORWARDING) →
       (PauseExperiment s).st.fastForwarding = false ∧
       (PauseExperiment s).st.state = EXPERIMENT_PAUSED ∧
       (PauseExperiment s).st.tickMillis = s.tickMillis ∧
       (PauseExperiment s).effects =
         [Effect.emitEvent "Experiment paused" EXPERIMENT_PAUSED]) ∧
    (PlayExperiment tick s).thrown = none ∧
    (FastForwardExperiment tick s).thrown = none ∧
    (StepExperiment ts s).thrown = none ∧
    (ResetExperiment ts s).thrown = none := by
  obtain ⟨st, ff, tm, dfe, eng⟩ := s
  cases st <;>
    simp [PauseExperiment, PlayExperiment, FastForwardExperiment,
      StepExperiment, ResetExperiment, isEmitEff, apply_ite,
      List.countP_cons, List.countP_nil]

/-- C4 witness: Pause from the initialized state throws. -/
theorem C4_pause_error_policy_witness :
    (PauseExperiment stateInit).thrown.isSome = true :=
  (C4_pause_error_policy 5 0 stateInit).1.mpr ⟨by decide, by decide⟩

/-- C5 counterexample to the claim as stated: an outer-loop iteration entered
in `FAST_FORWARDING` with the engine not finished can perform two snapshot
broadcasts, not exactly one — when the engine finishes mid-burst, the
completion handling broadcasts a second time inside Reset. -/
theorem C5_double_broadcast_counterexample :
    stateFFAboutToFinish.state = EXPERIMENT_FAST_FORWARDING ∧
    stateFFAboutToFinish.fastForwarding = true ∧
    stateFFAboutToFinish.engine.isFinished = false ∧
    stateFFAboutToFinish.drawFrameEvery = 2 ∧
    (SimulationLoopBody (fun _ => EXPERIMENT_FAST_FORWARDING) 0
        stateFFAboutToFinish).2.1.countP isBroadcastEff = 2 := by
  decide

/-- C5 (amended): an outer-loop iteration entered in `FAST_FORWARDING` with
the engine not finished performs at most `framesPerFFBurst` engine steps
(never one broadcast per inner step); it performs exactly one snapshot
broadcast when the engine does not finish during the burst, and exactly one
additional broadcast (inside Reset) when it does; the inner loop stops early
when the observed phase leaves `PLAYING`/`FAST_FORWARDING` or the engine
finishes. -/
theorem C5_fastforward_burst_amended (phaseSeq : Nat → EExperimentState)
    (ts : Nat) (s : WebvizState)
    (hff : s.state = EXPERIMENT_FAST_FORWARDING)
    (hflag : s.fastForwarding = true)
    (hnf : s.engine.isFinished = false) :
    ((SimulationLoopBody phaseSeq ts s).2.1.countP isEngineStepEff =
       (burstLoop phaseSeq 0 s.drawFrameEvery s.engine).1) ∧
    (burstLoop phaseSeq 0 s.drawFrameEvery s.engine).1 ≤ s.drawFrameEvery ∧
    ((SimulationLoopBody phaseSeq ts s).2.1.countP isBroadcastEff =
       if (burstLoop phaseSeq 0 s.drawFrameEvery s.engine).2.isFinished then 2
       else 1) ∧
    (∀ j, isRunningPhase (phaseSeq j) = false →
       (burstLoop phaseSeq 0 s.drawFrameEvery s.engine).1 ≤ j) ∧
    (burstLoop phaseSeq 0 s.drawFrameEvery s.engine).1 ≤
      s.engine.finishTime - s.engine.clock := by
  have hrp : isRunningPhase s.state = true := by rw [hff]; rfl
  rcases hb : burstLoop phaseSeq 0 s.drawFrameEvery s.engine with ⟨n, eng1⟩
  have hle : n ≤ s.drawFrameEvery := by
    have h := burstLoop_le phaseSeq s.drawFrameEvery 0 s.engine
    rw [hb] at h
    exact h
  refine ⟨?_, hle, ?_, ?_, ?_⟩
  · cases hfin : eng1.isFinished <;>
      simp [SimulationLoopBody, hrp, hnf, hflag, hb, hfin, ResetExperiment,
        List.countP_cons, List.countP_append, countP_replicate_eff,
        isEngineStepEff]
  · cases hfin : eng1.isFinished <;>
      simp [SimulationLoopBody, hrp, hnf, hflag, hb, hfin, ResetExperiment,
        List.countP_cons, List.countP_append, countP_replicate_eff,
        isBroadcastEff]
  · intro j hstop
    have h := burstLoop_stop_phase phaseSeq s.drawFrameEvery 0 j s.engine
      (by simpa using hstop)
    rw [hb] at h
    exact h
  · have h := burstLoop_stop_finish phaseSeq s.drawFrameEvery 0 s.engine
    rw [hb] at h
    exact h

/-- C5 witness: at a concrete fast-forwarding state far from finishing, the
iteration performs exactly the burst's number of engine steps. -/
theorem C5_fastforward_burst_witness :
    (SimulationLoopBody (fun _ => EXPERIMENT_FAST_FORWARDING) 0
        stateFFRunning).2.1.countP isEngineStepEff =
      (burstLoop (fun _ => EXPERIMENT_FAST_FORWARDING) 0
        stateFFRunning.drawFrameEvery stateFFRunning.engine).1 :=
  (C5_fastforward_burst_amended (fun _ => EXPERIMENT_FAST_FORWARDING) 0
    stateFFRunning rfl rfl (by decide)).1

/-- C6: Play from `INITIALIZED`/`PAUSED` clears the fast-forward flag, stores
the freshly recomputed tick duration, sets the phase to `PLAYING` and emits a
"playing" event; Play from `PLAYING`/`FAST_FORWARDING` logs a warning and
leaves the whole member state unchanged, emitting nothing. -/
theorem C6_play_semantics (tick : Nat) (s : WebvizState) :
    ((s.state = EXPERIMENT_INITIALIZED ∨ s.state = EXPERIMENT_PAUSED) →
       (PlayExperiment tick s).st.fastForwarding = false ∧
       (PlayExperiment tick s).st.tickMillis = tick ∧
       (PlayExperiment tick s).st.state = EXPERIMENT_PLAYING ∧
       (PlayExperiment tick s).effects =
         [Effect.emitEvent "Experiment playing" EXPERIMENT_PLAYING]) ∧
    ((s.state = EXPERIMENT_PLAYING ∨ s.state = EXPERIMENT_FAST_FORWARDING) →
       (PlayExperiment tick s).st = s ∧
       (PlayExperiment tick s).effects = [Effect.logWarning]) := by
  obtain ⟨st, ff, tm, dfe, eng⟩ := s
  cases st <;> simp [PlayExperiment]

/-- C6 witness: Play from the initialized state yields phase `PLAYING`. -/
theorem C6_play_semantics_witness :
    (PlayExperiment 7 stateInit).st.state = EXPERIMENT_PLAYING :=
  ((C6_play_semantics 7 stateInit).1 (Or.inl rfl)).2.2.1

/-- C7: FastForward always results in phase `FAST_FORWARDING` with the
fast-forward flag set and the tick duration recomputed, never throwing; when
the prior phase is not `INITIALIZED`/`PAUSED` it logs a warning but still
transitions, whereas Play in the same phases refuses and leaves the state
unchanged. -/
theorem C7_fastforward_semantics (tick : Nat) (s : WebvizState) :
    (FastForwardExperiment tick s).st.state = EXPERIMENT_FAST_FORWARDING ∧
    (FastForwardExperiment tick s).st.fastForwarding = true ∧
    (FastForwardExperiment tick s).st.tickMillis = tick ∧
    (FastForwardExperiment tick s).thrown = none ∧
    ((s.state ≠ EXPERIMENT_INITIALIZED ∧ s.state ≠ EXPERIMENT_PAUSED) →
       (FastForwardExperiment tick s).effects =
         [Effect.logWarning,
          Effect.emitEvent "Experiment fast-forwarding"
            EXPERIMENT_FAST_FORWARDING] ∧
       (PlayExperiment tick s).st = s ∧
       (PlayExperiment tick s).effects = [Effect.logWarning]) ∧
    ((s.state = EXPERIMENT_INITIALIZED ∨ s.state = EXPERIMENT_PAUSED) →
       (FastForwardExperiment tick s).effects =
         [Effect.emitEvent "Experiment fast-forwarding"
            EXPERIMENT_FAST_FORWARDING]) := by
  obtain ⟨st, ff, tm, dfe, eng⟩ := s
  cases st <;> simp [FastForwardExperiment, PlayExperiment]

/-- C7 witness: FastForward called while already fast-forwarding warns but
still transitions. -/
theorem C7_fastforward_semantics_witness :
    (FastForwardExperiment 7 stateFFRunning).effects =
      [Effect.logWarning,
       Effect.emitEvent "Experiment fast-forwarding"
         EXPERIMENT_FAST_FORWARDING] :=
  ((C7_fastforward_semantics 7 stateFFRunning).2.2.2.2.1
    ⟨by decide, by decide⟩).1

/-- C8: initialization accepts a broadcast frequency exactly when it lies in
the range 1 to 10, and throws for every value outside it; in particular 0 and
11 are rejected while 1 and 10 are accepted. -/
theorem C8_broadcast_frequency_validation (port f d : Nat) :
    (initAccepts port f d = true ↔ (1 ≤ f ∧ f ≤ 10)) ∧
    initAccepts port 0 d = false ∧
    initAccepts port 11 d = false ∧
    initAccepts port 1 d = true ∧
    initAccepts port 10 d = true := by
  have key : ∀ g : Nat, initAccepts port g d = true ↔ (1 ≤ g ∧ g ≤ 10) := by
    intro g
    by_cases h : g < 1 ∨ 10 < g
    · simp only [initAccepts, InitWebviz, if_pos h]
      constructor
      · intro hc
        exact absurd hc (by simp)
      · intro hc
        omega
    · simp only [initAccepts, InitWebviz, if_neg h]
      constructor
      · intro hc
        omega
      · intro hc
        trivial
  exact ⟨key f, by simpa using (key 0).not, by simpa using (key 11).not,
    (key 1).mpr (by omega), (key 10).mpr (by omega)⟩

/-- C8 witness: the boundary value 10 is accepted. -/
theorem C8_broadcast_frequency_validation_witness :
    initAccepts 3000 10 2 = true :=
  (C8_broadcast_frequency_validation 3000 10 2).2.2.2.2

/-- C9: every emission of the "Experiment done" event — from the driver's
mid-run completion path, from the driver's already-finished path, or from Step
called with the engine finished — is immediately preceded by the
"Experiment reset" event and the broadcast performed inside Reset, and carries
phase `INITIALIZED`; no other path emits "Experiment done" at all. -/
theorem C9_done_event_after_reset (phaseSeq : Nat → EExperimentState)
    (ts : Nat) (s : WebvizState) :
    (∀ n eng1,
       (s.state = EXPERIMENT_PLAYING ∨
        s.state = EXPERIMENT_FAST_FORWARDING) →
       s.engine.isFinished = false →
       burstLoop phaseSeq 0 (if s.fastForwarding then s.drawFrameEvery else 1)
           s.engine = (n, eng1) →
       eng1.isFinished = true →
       ∃ A b,
         (SimulationLoopBody phaseSeq ts s).2.1 =
           A ++ [Effect.emitEvent "Experiment reset" EXPERIMENT_INITIALIZED,
                 Effect.broadcast b,
                 Effect.emitEvent "Experiment done" EXPERIMENT_INITIALIZED] ∧
         A.countP isDoneEff = 0) ∧
    ((s.state = EXPERIMENT_PLAYING ∨ s.state = EXPERIMENT_FAST_FORWARDING) →
       s.engine.isFinished = true →
       ∃ b,
         (SimulationLoopBody phaseSeq ts s).2.1 =
           [Effect.postExperiment,
            Effect.emitEvent "Experiment reset" EXPERIMENT_INITIALIZED,
            Effect.broadcast b,
            Effect.emitEvent "Experiment done" EXPERIMENT_INITIALIZED]) ∧
    ((s.state = EXPERIMENT_PAUSED ∨ s.state = EXPERIMENT_INITIALIZED) →
       s.engine.isFinished = true →
       ∃ b b2,
         (StepExperiment ts s).effects =
           [Effect.postExperiment,
            Effect.emitEvent "Experiment reset" EXPERIMENT_INITIALIZED,
            Effect.broadcast b,
            Effect.emitEvent "Experiment done" EXPERIMENT_INITIALIZED,
            Effect.broadcast b2]) ∧
    (s.engine.isFinished = false →
       (StepExperiment ts s).effects.countP isDoneEff = 0) ∧
    ((s.state = EXPERIMENT_PLAYING ∨ s.state = EXPERIMENT_FAST_FORWARDING) →
       s.engine.isFinished = false →
       ∀ n eng1,
         burstLoop phaseSeq 0
             (if s.fastForwarding then s.drawFrameEvery else 1) s.engine =
           (n, eng1) →
         eng1.isFinished = false →
         (SimulationLoopBody phaseSeq ts s).2.1.countP isDoneEff = 0) ∧
    ((s.state = EXPERIMENT_PAUSED ∨ s.state = EXPERIMENT_INITIALIZED) →
       (SimulationLoopBody phaseSeq ts s).2.1.countP isDoneEff = 0) := by
  refine ⟨?_, ?_, ?_, ?_, ?_, ?_⟩
  · intro n eng1 hrun hnf hb hfin
    have hrp : isRunningPhase s.state = true := by
      rcases hrun with h | h <;> rw [h] <;> rfl
    refine ⟨Effect.preStep :: (List.replicate n Effect.engineStep ++
      [Effect.broadcast (broadcastJson ts { s with engine := eng1 }),
       Effect.postStep, Effect.postExperiment]),
      broadcastJson ts (ResetExperiment ts { s with engine := eng1 }).st,
      ?_, ?_⟩
    · simp [SimulationLoopBody, hrp, hnf, hb, hfin, ResetExperiment]
    · simp [List.countP_cons, List.countP_append, countP_replicate_eff,
        isDoneEff]
  · intro hrun hfin
    have hrp : isRunningPhase s.state = true := by
      rcases hrun with h | h <;> rw [h] <;> rfl
    exact ⟨broadcastJson ts (ResetExperiment ts s).st,
      by simp [SimulationLoopBody, hrp, hfin, ResetExperiment]⟩
  · intro hidle hfin
    have hnr : ¬(s.state = EXPERIMENT_PLAYING ∨
        s.state = EXPERIMENT_FAST_FORWARDING) := by
      rcases hidle with h | h <;> rw [h] <;> simp
    refine ⟨broadcastJson ts
        (ResetExperiment ts { s with fastForwarding := false }).st,
      broadcastJson ts
        (ResetExperiment ts { s with fastForwarding := false }).st, ?_⟩
    simp [StepExperiment, hnr, hfin, ResetExperiment]
  · intro hnf
    by_cases hr : s.state = EXPERIMENT_PLAYING ∨
        s.state = EXPERIMENT_FAST_FORWARDING
    · simp [StepExperiment, hr, List.countP_cons, isDoneEff]
    · simp [StepExperiment, hr, hnf, List.countP_cons, isDoneEff]
  · intro hrun hnf n eng1 hb hfin
    have hrp : isRunningPhase s.state = true := by
      rcases hrun with h | h <;> rw [h] <;> rfl
    simp [SimulationLoopBody, hrp, hnf, hb, hfin, List.countP_cons,
      List.countP_append, countP_replicate_eff, isDoneEff]
  · intro hidle
    have hrp : isRunningPhase s.state = false := by
      rcases hidle with h | h <;> rw [h] <;> rfl
    simp [SimulationLoopBody, hrp, List.countP_cons, isDoneEff]

/-- C9 witness: at concrete unfinished states, neither Step nor the driver
body emits "Experiment done". -/
theorem C9_done_event_after_reset_witness :
    (StepExperiment 0 stateInit).effects.countP isDoneEff = 0 ∧
    (SimulationLoopBody (fun _ => EXPERIMENT_INITIALIZED) 0
        stateInit).2.1.countP isDoneEff = 0 :=
  ⟨(C9_done_event_after_reset (fun _ => EXPERIMENT_INITIALIZED) 0
      stateInit).2.2.2.1 (by decide),
   (C9_done_event_after_reset (fun _ => EXPERIMENT_INITIALIZED) 0
      stateInit).2.2.2.2.2 (Or.inr rfl)⟩

/-- C10: when no root entity yields a JSON conversion (including zero
entities) the snapshot has no "entities" key at all, while the arena,
timestamp, state and steps keys are always present; when at least one entity
converts, the "entities" key holds exactly the successful conversions, the
failed ones being omitted without preventing the broadcast. -/
theorem C10_snapshot_keys (ts : Nat) (s : WebvizState) :
    (s.engine.entities.filterMap id = [] →
       (∀ v, ("entities", v) ∉ broadcastJson ts s) ∧
       broadcastJson ts s =
         [("arena",
           JsonVal.arenaObj s.engine.arenaSize s.engine.arenaCenter),
          ("timestamp", JsonVal.numVal ts),
          ("state", JsonVal.strVal (EExperimentStateToStr s.state)),
          ("steps", JsonVal.numVal s.engine.clock)]) ∧
    ("arena", JsonVal.arenaObj s.engine.arenaSize s.engine.arenaCenter) ∈
      broadcastJson ts s ∧
    ("timestamp", JsonVal.numVal ts) ∈ broadcastJson ts s ∧
    ("state", JsonVal.strVal (EExperimentStateToStr s.state)) ∈
      broadcastJson ts s ∧
    ("steps", JsonVal.numVal s.engine.clock) ∈ broadcastJson ts s ∧
    (s.engine.entities.filterMap id ≠ [] →
       ("entities", JsonVal.entityArr (s.engine.entities.filterMap id)) ∈
         broadcastJson ts s) := by
  refine ⟨?_, ?_, ?_, ?_, ?_, ?_⟩
  · intro h
    constructor
    · intro v
      simp [broadcastJson, h]
    · simp [broadcastJson, h]
  · by_cases h : s.engine.entities.filterMap id = [] <;>
      simp [broadcastJson, h]
  · by_cases h : s.engine.entities.filterMap id = [] <;>
      simp [broadcastJson, h]
  · by_cases h : s.engine.entities.filterMap id = [] <;>
      simp [broadcastJson, h]
  · by_cases h : s.engine.entities.filterMap id = [] <;>
      simp [broadcastJson, h]
  · intro h
    simp [broadcastJson, h]

/-- C10 witness: with a single failing entity the snapshot is exactly the
four keys, with no "entities" key. -/
theorem C10_snapshot_keys_witness :
    broadcastJson 3 stateWithFailingEntity =
      [("arena",
        JsonVal.arenaObj stateWithFailingEntity.engine.arenaSize
          stateWithFailingEntity.engine.arenaCenter),
       ("timestamp", JsonVal.numVal 3),
       ("state",
        JsonVal.strVal (EExperimentStateToStr stateWithFailingEntity.state)),
       ("steps", JsonVal.numVal stateWithFailingEntity.engine.clock)] :=
  ((C10_snapshot_keys 3 stateWithFailingEntity).1 (by decide)).2

end Webviz
